import Mathlib

/-!
Verification of the clock widget repository: a shallow embedding of its
time-synchronization state machines (NTPService, TimeController), its pure
formatting functions (formatTime, formatDate, week-number computations) and
the world-clock set operations (WorldClockManager), with theorems settling
the specification claims.

Machine times (JavaScript `Date` values) are modelled as `Int` milliseconds
since the Unix epoch; a possibly-invalid date (a `Date` holding NaN) is an
`Option Int` with `none` for NaN, and NaN propagation through arithmetic is
made explicit.  Wall-clock readings (`getHours`, `getMonth`, ...) are
modelled by a `CivilTime` record carrying the components the source reads.
-/

namespace Clock

/-! ## Calendar arithmetic

Civil-date conversions used to embed the JavaScript `Date` component getters
(`getUTCDay`, `Date.UTC`, date subtraction).  `daysFromCivil` and
`civilFromDays` are the standard Gregorian conversions between a
year/month/day triple (month 1..12) and a count of days since 1970-01-01.
All divisions are mathematical floor divisions, matching the ECMAScript
day-number arithmetic. -/

/-- Days since 1970-01-01 of the civil date `y-m-d` (month 1..12). -/
def daysFromCivil (y m d : Int) : Int :=
  let y1 := if m ≤ 2 then y - 1 else y
  let era := y1.fdiv 400
  let yoe := y1 - era * 400
  let doy := (153 * (m + (if 2 < m then -3 else 9)) + 2).fdiv 5 + d - 1
  let doe := yoe * 365 + yoe.fdiv 4 - yoe.fdiv 100 + doy
  era * 146097 + doe - 719468

/-- Civil date `(y, m, d)` (month 1..12) of a count of days since 1970-01-01. -/
def civilFromDays (z0 : Int) : Int × Int × Int :=
  let z := z0 + 719468
  let era := z.fdiv 146097
  let doe := z - era * 146097
  let yoe := (doe - doe.fdiv 1460 + doe.fdiv 36524 - doe.fdiv 146096).fdiv 365
  let y := yoe + era * 400
  let doy := doe - (365 * yoe + yoe.fdiv 4 - yoe.fdiv 100)
  let mp := (5 * doy + 2).fdiv 153
  let d := doy - (153 * mp + 2).fdiv 5 + 1
  let m := mp + (if mp < 10 then 3 else -9)
  (y + (if m ≤ 2 then 1 else 0), m, d)

/-- JavaScript `getUTCDay` of a day count: weekday with Sunday = 0.
1970-01-01 (day 0) was a Thursday (= 4). -/
def weekdayOfDays (z : Int) : Int :=
  (z + 4).emod 7

/-! ## Shared JavaScript value helpers -/

/-- A local wall-clock reading of a valid `Date`: the components the source
extracts through `getFullYear`, `getMonth` (0-based), `getDate`, `getHours`,
`getMinutes`, `getSeconds`.  An invalid `Date` (NaN time value) is an
`Option CivilTime` that is `none`: every component getter returns NaN. -/
structure CivilTime where
  year : Int
  month0 : Nat
  day : Nat
  hour : Nat
  minute : Nat
  second : Nat
deriving DecidableEq

/-- JavaScript `n.toString().padStart(2, "0")` for a non-negative number. -/
def pad2 (n : Nat) : String :=
  if n < 10 then "0" ++ toString n else toString n

/-- JavaScript number-to-string where `none` is NaN (renders as `NaN`). -/
def jsNatStr : Option Nat → String
  | some n => toString n
  | none => "NaN"

/-- JavaScript number-to-string on a possibly-NaN integer. -/
def jsIntStr : Option Int → String
  | some n => toString n
  | none => "NaN"

/-- JavaScript `padStart(2, "0")` on a possibly-NaN number: the string
`NaN` already has length 3, so NaN is left unpadded. -/
def jsPad2 : Option Nat → String
  | some n => pad2 n
  | none => "NaN"

/-- JavaScript `x >= k` on a possibly-NaN number: every comparison with NaN
is false. -/
def jsGe (a : Option Nat) (k : Nat) : Bool :=
  match a with
  | some n => decide (k ≤ n)
  | none => false

/-- JavaScript array indexing `l[i]` rendered in a template literal: an
out-of-range or NaN index yields `undefined`. -/
def jsListGet (l : List String) (i : Option Nat) : String :=
  match i with
  | some n => l.getD n "undefined"
  | none => "undefined"

/-- The `dayNames` array of TimeController.formatDate. -/
def dayNames : List String :=
  ["Sunday", "Monday", "Tuesday", "Wednesday", "Thursday", "Friday", "Saturday"]

/-- The `monthNames` array of TimeController.formatDate. -/
def monthNames : List String :=
  ["January", "February", "March", "April", "May", "June",
   "July", "August", "September", "October", "November", "December"]

end Clock

namespace Clock.NTPService

/-- Mutable synchronization state of `NTPService`
(src/js/services/NTPService.js): the stored offset in milliseconds, the
instant of the last successful sync (`null` when never synced), the
online-mode flag and the configured sync interval. -/
structure State where
  timeOffset : Int
  lastSyncTime : Option Int
  isOnlineMode : Bool
  syncInterval : Int

/-- Constructor state: `timeOffset = 0`, `lastSyncTime = null`,
`isOnlineMode = true`, `syncInterval = 15 * 60 * 1000`. -/
def State.init : State :=
  { timeOffset := 0, lastSyncTime := none, isOnlineMode := true
    syncInterval := 15 * 60 * 1000 }

/-- NTPService.calculateOffset argument: a JavaScript value that is either
not a `Date` object at all, a `Date` holding NaN, or a valid `Date` with an
integral millisecond time value. -/
inductive JSDateArg where
  | notDate
  | nanDate
  | valid (t : Int)
deriving DecidableEq

/-- The `instanceof Date` test of `calculateOffset`. -/
def JSDateArg.isDate : JSDateArg → Bool
  | .notDate => false
  | _ => true

/-- JavaScript `getTime()` on a `Date`: `none` encodes NaN. -/
def JSDateArg.getTime : JSDateArg → Option Int
  | .notDate => none
  | .nanDate => none
  | .valid t => some t

/-- JavaScript subtraction with NaN propagation: if either operand is NaN
the result is NaN. -/
def jsSub : Option Int → Option Int → Option Int
  | some a, some b => some (a - b)
  | _, _ => none

/-- NTPService.calculateOffset (NTPService.js lines 148-154): throws
`Invalid date objects provided for offset calculation` when either argument
fails `instanceof Date`; otherwise returns `ntpTime.getTime() -
localTime.getTime()`, which is NaN (modelled as `.ok none`) when either
date holds NaN. -/
def calculateOffset (ntpTime localTime : JSDateArg) : Except String (Option Int) :=
  if !ntpTime.isDate || !localTime.isDate then
    .error "Invalid date objects provided for offset calculation"
  else
    .ok (jsSub ntpTime.getTime localTime.getTime)

/-- NTPService.handleSyncFailure (NTPService.js lines 290-299): switch off
online mode; reset the offset to 0 only when no sync has ever succeeded. -/
def handleSyncFailure (s : State) : State :=
  let s1 := { s with isOnlineMode := false }
  if s1.lastSyncTime = none then { s1 with timeOffset := 0 } else s1

/-- Outcome of the `fetchNTPTime` call inside `performSync`: on success the
remote time and the local clock readings before and after the request and
at the moment the sync completes; otherwise failure (network, protocol or
format error — all reach the same catch block). -/
inductive FetchOutcome where
  | success (ntpTime t0 t1 now : Int)
  | failure

/-- NTPService.performSync (NTPService.js lines 252-285): returns false at
once when `navigator.onLine` is false; on a successful fetch stores the
offset computed against the delay-adjusted local reference
`t0 + (t1 - t0) / 2`, records the sync instant and re-enables online mode;
on a failed fetch applies `handleSyncFailure` only when still in online
mode.  The halving of the round-trip is modelled with integer division
(`Date` time values are integral milliseconds). -/
def performSync (s : State) (navigatorOnline : Bool) (outcome : FetchOutcome) :
    State × Bool :=
  if !navigatorOnline then (s, false)
  else
    match outcome with
    | .success ntpTime t0 t1 now =>
        let networkDelay := (t1 - t0) / 2
        let adjustedLocalTime := t0 + networkDelay
        ({ s with timeOffset := ntpTime - adjustedLocalTime
                  lastSyncTime := some now
                  isOnlineMode := true }, true)
    | .failure =>
        if s.isOnlineMode then (handleSyncFailure s, false) else (s, false)

/-- The `window` online event handler (NTPService.js lines 205-209): sets
`isOnlineMode = true` (the subsequent `startPeriodicSync` resync is a
separate `performSync` step). -/
def onlineEvent (s : State) : State :=
  { s with isOnlineMode := true }

/-- The `window` offline event handler (NTPService.js lines 211-215): sets
`isOnlineMode = false`. -/
def offlineEvent (s : State) : State :=
  { s with isOnlineMode := false }

/-- NTPService.getCurrentTime (NTPService.js lines 304-314): applies the
stored offset when `isOnlineMode || lastSyncTime !== null`, otherwise
returns the raw local time.  Total: the source body cannot throw. -/
def getCurrentTime (s : State) (localNow : Int) : Int :=
  if s.isOnlineMode || s.lastSyncTime.isSome then localNow + s.timeOffset
  else localNow

/-- Result record of NTPService.getSyncStatus. -/
structure SyncStatus where
  isOnline : Bool
  lastSyncTime : Option Int
  timeOffset : Int
  syncInterval : Int
  isUsingNTPTime : Bool

/-- NTPService.getSyncStatus (NTPService.js lines 319-327). -/
def getSyncStatus (s : State) : SyncStatus :=
  { isOnline := s.isOnlineMode
    lastSyncTime := s.lastSyncTime
    timeOffset := s.timeOffset
    syncInterval := s.syncInterval
    isUsingNTPTime := s.isOnlineMode || s.lastSyncTime.isSome }

/-- States of the NTPService reachable from construction through sync
attempts and network events. -/
inductive Reachable : State → Prop where
  | init : Reachable State.init
  | sync (s : State) (b : Bool) (o : FetchOutcome) :
      Reachable s → Reachable (performSync s b o).1
  | online (s : State) : Reachable s → Reachable (onlineEvent s)
  | offline (s : State) : Reachable s → Reachable (offlineEvent s)

end Clock.NTPService

namespace Clock.TimeController

/-- Synchronization state of `TimeController`
(src/js/controllers/TimeController.js): its own offset, synced flag and
last-sync instant, parallel to but distinct from the NTPService state. -/
structure State where
  timeOffset : Int
  isNTPSynced : Bool
  lastSyncTime : Option Int

/-- Constructor state: `timeOffset = 0`, `isNTPSynced = false`,
`lastSyncTime = null`. -/
def State.init : State :=
  { timeOffset := 0, isNTPSynced := false, lastSyncTime := none }

/-- The success branch of TimeController.syncWithNTP (TimeController.js
lines 358-369): stores `calculateOffset(ntpTime, localTime) = ntpTime -
localTime`, sets the synced flag and records the sync instant. -/
def syncSuccess (ntpTime localTime now : Int) : State :=
  { timeOffset := ntpTime - localTime, isNTPSynced := true, lastSyncTime := some now }

/-- TimeController.handleOfflineMode (TimeController.js lines 380-384),
the failure handler reached from the catch block of `syncWithNTP`: clears
the synced flag and resets the stored offset to 0 unconditionally — even
when a previous sync had succeeded. -/
def handleOfflineMode (s : State) : State :=
  { s with isNTPSynced := false, timeOffset := 0 }

/-- TimeController.getCurrentTime (TimeController.js lines 96-105): applies
the controller offset when `isNTPSynced && timeOffset !== null` (the second
conjunct always holds, the offset being a number). -/
def getCurrentTime (s : State) (localNow : Int) : Int :=
  if s.isNTPSynced then localNow + s.timeOffset else localNow

/-- Result record of TimeController.formatTime.  The source also copies
`isNTPSynced` and `lastSync` out of the controller state into the result;
these pass-through fields are independent of the formatting computation and
are omitted. -/
structure FormattedTime where
  timeString : String
  ampm : String
  showSeconds : Bool
  use24Hour : Bool
deriving DecidableEq

/-- TimeController.formatTime (TimeController.js lines 110-144) on the
wall-clock reading of the given date (`none` = invalid date, every getter
returning NaN): in 12-hour mode the meridiem is `PM` exactly when
`hours >= 12` and the displayed hour is `hours % 12` with 0 replaced by 12;
in 24-hour mode the meridiem stays empty; all fields are zero-padded via
`padStart(2, "0")` and the seconds segment is appended only when
`showSeconds`.  Total: the source body cannot throw, NaN components render
as the string `NaN`. -/
def formatTime (date : Option CivilTime) (showSeconds use24Hour : Bool) :
    FormattedTime :=
  let hours0 : Option Nat := date.map (fun c => c.hour)
  let minutes : Option Nat := date.map (fun c => c.minute)
  let seconds : Option Nat := date.map (fun c => c.second)
  let ampm := if !use24Hour then (if jsGe hours0 12 then "PM" else "AM") else ""
  let hours :=
    if !use24Hour then
      let h1 := hours0.map (fun h => h % 12)
      if h1 = some 0 then some 12 else h1
    else hours0
  let timeString :=
    jsPad2 hours ++ ":" ++ jsPad2 minutes ++
      (if showSeconds then ":" ++ jsPad2 seconds else "")
  { timeString := timeString, ampm := ampm
    showSeconds := showSeconds, use24Hour := use24Hour }

/-- TimeController.getWeekNumber (TimeController.js lines 262-276), the
ISO-8601 week number: normalize the weekday to Monday = 1 .. Sunday = 7,
shift to the Thursday of the week, and count weeks from January 1 of the
Thursday year.  Inputs mirror the getter calls
`Date.UTC(getFullYear(), getMonth(), getDate())` (month 0-based). -/
def getWeekNumber (year : Int) (month0 day : Nat) : Int :=
  let z := daysFromCivil year ((month0 : Int) + 1) (day : Int)
  let w := weekdayOfDays z
  let dayNum := if w = 0 then 7 else w
  let zThursday := z + 4 - dayNum
  let thursdayYear := (civilFromDays zThursday).1
  let yearStart := daysFromCivil thursdayYear 1 1
  (zThursday - yearStart + 1 + 6).fdiv 7

/-- Result record of TimeController.formatDate. -/
structure FormattedDate where
  dateString : String
  dayName : String
  day : Option Nat
  monthName : String
  year : Option Int
  weekNumber : Option Int
deriving DecidableEq

/-- TimeController.formatDate (TimeController.js lines 233-257): weekday
and month names looked up by `getDay()` / `getMonth()` (an invalid date
indexes with NaN and yields `undefined`), the week number from
`getWeekNumber`, and the combined display string.  Total: the source body
cannot throw. -/
def formatDate (date : Option CivilTime) : FormattedDate :=
  let dayName := jsListGet dayNames
    (date.map (fun c =>
      (weekdayOfDays (daysFromCivil c.year ((c.month0 : Int) + 1) (c.day : Int))).toNat))
  let day := date.map (fun c => c.day)
  let monthName := jsListGet monthNames (date.map (fun c => c.month0))
  let year := date.map (fun c => c.year)
  let weekNumber := date.map (fun c => getWeekNumber c.year c.month0 c.day)
  let dateString :=
    dayName ++ ", " ++ jsNatStr day ++ " " ++ monthName ++ ", " ++
      jsIntStr year ++ ", week " ++ jsIntStr weekNumber
  { dateString := dateString, dayName := dayName, day := day
    monthName := monthName, year := year, weekNumber := weekNumber }

end Clock.TimeController

namespace Clock.WorldClockManager

/-- WorldClockManager.getWeekNumberForTimezone (src/unnamed/part_002 lines
424-440) on the wall-clock date of the instant in the target timezone
(evaluated at local midnight there; the source divides a millisecond
difference by 86400000 before adding, so a nonzero time of day only adds a
fraction below 1 to the numerator).  The formula is
`ceil((pastDaysOfYear + weekday(Jan 1) + 1) / 7)` with Sunday = 0 — a
calendar-week rule, not the nearest-Thursday ISO rule. -/
def getWeekNumberForTimezone (year : Int) (month0 day : Nat) : Int :=
  let z := daysFromCivil year ((month0 : Int) + 1) (day : Int)
  let startOfYear := daysFromCivil year 1 1
  let pastDaysOfYear := z - startOfYear
  let startDow := weekdayOfDays startOfYear
  (pastDaysOfYear + startDow + 1 + 6).fdiv 7

/-- Result record of WorldClockManager.getTimeForTimezone and its fallback.
Numeric fields are `Option Int` with `none` for NaN.  The success branch of
the source leaves `isFallback` absent (undefined, i.e. falsy); the model
writes `false` there. -/
structure TzTime where
  hours : Option Int
  hours12 : Option Int
  minutes : Option Int
  seconds : Option Int
  ampm : String
  timezone : String
  isError : Bool
  isFallback : Bool
deriving DecidableEq

/-- The hours12/ampm conversion block that recurs verbatim in
getTimeForTimezone and both fallback layers: `hours12` starts as `hours24`
and `ampm` as `AM`; 0 becomes 12, values above 12 drop 12 and turn PM, and
12 itself turns PM.  With a NaN `hours24` every comparison is false, so the
NaN hour and the initial `AM` survive unchanged. -/
def to12Hour (hours24 : Option Int) : Option Int × String :=
  match hours24 with
  | none => (none, "AM")
  | some h =>
      if h = 0 then (some 12, "AM")
      else if 12 < h then (some (h - 12), "PM")
      else if h = 12 then (some 12, "PM")
      else (some h, "AM")

/-- JavaScript `getUTCHours` of a millisecond timestamp. -/
def hourOfMs (ms : Int) : Int := (ms.fdiv 3600000).emod 24

/-- JavaScript `getUTCMinutes` of a millisecond timestamp. -/
def minOfMs (ms : Int) : Int := (ms.fdiv 60000).emod 60

/-- JavaScript `getUTCSeconds` of a millisecond timestamp. -/
def secOfMs (ms : Int) : Int := (ms.fdiv 1000).emod 60

/-- The hardcoded `timezoneOffsets` table of getFallbackTimeForTimezone
(src/unnamed/part_002 lines 265-286), in milliseconds (the source stores
hours — 5.5 for Asia/Kolkata — and multiplies by 3600000; the products are
integral).  DST-unaware by construction. -/
def timezoneOffsets : String → Option Int
  | "America/New_York" => some (-18000000)
  | "America/Los_Angeles" => some (-28800000)
  | "America/Chicago" => some (-21600000)
  | "America/Denver" => some (-25200000)
  | "Europe/London" => some 0
  | "Europe/Paris" => some 3600000
  | "Europe/Berlin" => some 3600000
  | "Europe/Rome" => some 3600000
  | "Europe/Madrid" => some 3600000
  | "Asia/Tokyo" => some 32400000
  | "Asia/Shanghai" => some 28800000
  | "Asia/Hong_Kong" => some 28800000
  | "Asia/Singapore" => some 28800000
  | "Asia/Dubai" => some 14400000
  | "Asia/Kolkata" => some 19800000
  | "Australia/Sydney" => some 39600000
  | "Australia/Melbourne" => some 39600000
  | "Pacific/Auckland" => some 46800000
  | "America/Sao_Paulo" => some (-10800000)
  | "America/Mexico_City" => some (-21600000)
  | _ => none

/-- WorldClockManager.getFallbackTimeForTimezone (src/unnamed/part_002
lines 256-351), the body of its try block: shift the timestamp by the local
`getTimezoneOffset()` minutes, add the fixed table offset (`|| 0`: zero for
identifiers not in the table, which coincides with `Option.getD 0`), and
read the clock fields with the `getUTC*` getters.  The result always
carries `isError = false` and `isFallback = true`; the catch branch that
would report `isError = true` is unreachable in this embedding because the
body is pure arithmetic (in the source too it only guards against runtime
surprises).  An invalid input date propagates NaN into the numeric fields
rather than entering the catch. -/
def getFallbackTimeForTimezone (localOffsetMin : Int) (t : Option Int)
    (tz : String) : TzTime :=
  let utcTime := t.map (fun ts => ts + localOffsetMin * 60000)
  let offsetMs := (timezoneOffsets tz).getD 0
  let timezoneTime := utcTime.map (fun u => u + offsetMs)
  let hours24 := timezoneTime.map hourOfMs
  let minutes := timezoneTime.map minOfMs
  let seconds := timezoneTime.map secOfMs
  let p := to12Hour hours24
  { hours := hours24, hours12 := p.1, minutes := minutes, seconds := seconds
    ampm := p.2, timezone := tz, isError := false, isFallback := true }

/-- WorldClockManager.getTimeForTimezone (src/unnamed/part_002 lines
206-251).  The runtime timezone database consulted through
`Intl.DateTimeFormat` is the oracle `tzdb`, mapping a supported identifier
to its offset from UTC in milliseconds at the given instant and an
unsupported one to `none`; `Intl` throwing — on an unsupported identifier
or an invalid date — lands in the catch block, which silently answers with
`getFallbackTimeForTimezone` instead of signalling the caller. -/
def getTimeForTimezone (tzdb : String → Option Int) (localOffsetMin : Int)
    (t : Option Int) (tz : String) : TzTime :=
  match t, tzdb tz with
  | some ts, some tzOffsetMs =>
      let localMs := ts + tzOffsetMs
      let hours24 := hourOfMs localMs
      let minutes := minOfMs localMs
      let seconds := secOfMs localMs
      let p := to12Hour (some hours24)
      { hours := some hours24, hours12 := p.1, minutes := some minutes
        seconds := some seconds, ampm := p.2, timezone := tz
        isError := false, isFallback := false }
  | _, _ => getFallbackTimeForTimezone localOffsetMin t tz

/-- Result record of WorldClockManager.formatDateForTimezone. -/
structure TzDate where
  dayName : String
  day : Int
  monthName : String
  year : Int
  weekNumber : Int
deriving DecidableEq

/-- WorldClockManager.formatDateForTimezone (src/unnamed/part_002 lines
387-419): extracts the weekday, day, month and year of the instant in the
target timezone through `Intl.DateTimeFormat.formatToParts` — which throws
(`RangeError`) on an invalid date or unsupported identifier, and the source
rethrows — and computes the week number with `getWeekNumberForTimezone`. -/
def formatDateForTimezone (tzdb : String → Option Int) (t : Option Int)
    (tz : String) : Except String TzDate :=
  match t, tzdb tz with
  | some ts, some tzOffsetMs =>
      let localMs := ts + tzOffsetMs
      let z := localMs.fdiv 86400000
      let c := civilFromDays z
      let month0 := (c.2.1 - 1).toNat
      .ok { dayName := jsListGet dayNames (some (weekdayOfDays z).toNat)
            day := c.2.2
            monthName := jsListGet monthNames (some month0)
            year := c.1
            weekNumber := getWeekNumberForTimezone c.1 month0 c.2.2.toNat }
  | _, _ => .error "RangeError"

/-- A field of the heterogeneous `timeData` record stored on a world clock:
the normal path stores numbers, the error path stores placeholder strings. -/
inductive JSField where
  | num (v : Option Int)
  | str (s : String)
deriving DecidableEq

/-- The `timeData` record stored by WorldClockManager.updateWorldClockTime:
the spread of the getTimeForTimezone result plus the nested date record.
Fields absent in the error-path object (`hours12`, `timezone`,
`isFallback`) are `Option`s. -/
structure WCTimeData where
  hours : JSField
  hours12 : Option JSField
  minutes : JSField
  seconds : JSField
  ampm : String
  timezone : Option String
  isError : Bool
  isFallback : Option Bool
  dateDayName : String
  dateDay : JSField
  dateMonthName : String
  dateYear : JSField
  dateWeekNumber : JSField
deriving DecidableEq

/-- The error-state `timeData` literal of updateWorldClockTime
(src/unnamed/part_002 lines 186-199): `--` placeholders with
`isError = true`. -/
def errorTimeData : WCTimeData :=
  { hours := .str "--", hours12 := none, minutes := .str "--"
    seconds := .str "--", ampm := "", timezone := none
    isError := true, isFallback := none
    dateDayName := "--", dateDay := .str "--", dateMonthName := "--"
    dateYear := .str "--", dateWeekNumber := .str "--" }

/-- WorldClockManager.updateWorldClockTime (src/unnamed/part_002 lines
171-201): computes `getTimeForTimezone` (total) and
`formatDateForTimezone` (can throw) for the clock; any exception is caught
and replaced by the `--` placeholder record with `isError = true`. -/
def updateWorldClockTime (tzdb : String → Option Int) (localOffsetMin : Int)
    (t : Option Int) (tz : String) : WCTimeData :=
  let timeData := getTimeForTimezone tzdb localOffsetMin t tz
  match formatDateForTimezone tzdb t tz with
  | .ok d =>
      { hours := .num timeData.hours, hours12 := some (.num timeData.hours12)
        minutes := .num timeData.minutes, seconds := .num timeData.seconds
        ampm := timeData.ampm, timezone := some timeData.timezone
        isError := timeData.isError, isFallback := some timeData.isFallback
        dateDayName := d.dayName, dateDay := .num (some d.day)
        dateMonthName := d.monthName, dateYear := .num (some d.year)
        dateWeekNumber := .num (some d.weekNumber) }
  | .error _ => errorTimeData

/-- A world-clock configuration entry
(`{id, cityName, timezone, isEnabled}`; the transient `timeData` slot is
not part of the set state). -/
structure WorldClock where
  id : String
  cityName : String
  timezone : String
  isEnabled : Bool
deriving DecidableEq

/-- WorldClockManager.addWorldClock (src/unnamed/part_002 lines 61-116):
refuse (return false) when the set already has 3 members, when the timezone
is already present, or when the identifier fails `isValidTimezone` (the
`Intl` validity oracle `isValidTz`); otherwise push the new configuration
and hand it to the settings collaborator — rolling the push back by
filtering out the fresh id when that save fails (`saveOk`).  Returns the
new configuration on success, `none` on every failure. -/
def addWorldClock (worldClocks : List WorldClock) (timezone cityName : String)
    (isValidTz saveOk : Bool) (newId : String) :
    List WorldClock × Option WorldClock :=
  if 3 ≤ worldClocks.length then (worldClocks, none)
  else if worldClocks.any (fun wc => wc.timezone = timezone) then (worldClocks, none)
  else if !isValidTz then (worldClocks, none)
  else
    let config : WorldClock :=
      { id := newId, cityName := cityName, timezone := timezone, isEnabled := true }
    let pushed := worldClocks ++ [config]
    if saveOk then (pushed, some config)
    else (pushed.filter (fun wc => wc.id ≠ newId), none)

/-- WorldClockManager.removeWorldClock (src/unnamed/part_002 lines
121-142): filter the entry out of the local array; report success when the
settings collaborator succeeded (`removeOk`) and the array shrank. -/
def removeWorldClock (worldClocks : List WorldClock) (removeOk : Bool)
    (targetId : String) : List WorldClock × Bool :=
  let filtered := worldClocks.filter (fun wc => wc.id ≠ targetId)
  (filtered, removeOk && decide (filtered.length < worldClocks.length))

/-- One operation on the world-clock set. -/
inductive WCOp where
  | add (timezone cityName : String) (isValidTz saveOk : Bool) (newId : String)
  | remove (removeOk : Bool) (targetId : String)

/-- Apply one operation to the world-clock set. -/
def applyOp (worldClocks : List WorldClock) : WCOp → List WorldClock
  | .add tz city v sv i => (addWorldClock worldClocks tz city v sv i).1
  | .remove rOk i => (removeWorldClock worldClocks rOk i).1

/-- Run a sequence of operations from the empty world-clock set (the
constructor initializes `this.worldClocks = []`). -/
def runOps (ops : List WCOp) : List WorldClock :=
  ops.foldl applyOp []

/-- The world-clock set invariant: at most 3 members, pairwise distinct
timezone identifiers. -/
def WCInvariant (worldClocks : List WorldClock) : Prop :=
  worldClocks.length ≤ 3 ∧
    worldClocks.Pairwise (fun a b => a.timezone ≠ b.timezone)

end Clock.WorldClockManager

namespace Clock

/-! ## Helper lemmas -/

/-- handleSyncFailure never changes the recorded last-sync instant. -/
theorem handleSyncFailure_lastSyncTime (s : NTPService.State) :
    (NTPService.handleSyncFailure s).lastSyncTime = s.lastSyncTime := by
  unfold NTPService.handleSyncFailure
  dsimp only
  split <;> rfl

/-- handleSyncFailure keeps the stored offset whenever a sync has ever
succeeded. -/
theorem handleSyncFailure_timeOffset (s : NTPService.State)
    (h : s.lastSyncTime ≠ none) :
    (NTPService.handleSyncFailure s).timeOffset = s.timeOffset := by
  unfold NTPService.handleSyncFailure
  dsimp only
  rw [if_neg h]

/-- In every reachable NTPService state, a null `lastSyncTime` forces a zero
offset: the offset is only written by a successful sync (which also sets
`lastSyncTime`) and by `handleSyncFailure` (which zeroes it exactly when
`lastSyncTime` is null). -/
theorem reachable_offset_zero_of_never_synced (s : NTPService.State)
    (hs : NTPService.Reachable s) :
    s.lastSyncTime = none → s.timeOffset = 0 := by
  induction hs with
  | init => intro _; rfl
  | sync s b o _ ih =>
      intro h
      cases b with
      | false =>
          simp only [NTPService.performSync, Bool.not_false, if_pos rfl] at h ⊢
          exact ih h
      | true =>
          cases o with
          | success ntpTime t0 t1 now =>
              simp [NTPService.performSync] at h
          | failure =>
              by_cases ho : s.isOnlineMode = true
              · simp only [NTPService.performSync, Bool.not_true,
                  Bool.false_eq_true, if_false, ho, if_true, if_pos] at h ⊢
                rw [handleSyncFailure_lastSyncTime] at h
                unfold NTPService.handleSyncFailure
                simp [h]
              · simp only [NTPService.performSync, Bool.not_true,
                  Bool.false_eq_true, if_false, ho] at h ⊢
                exact ih h
  | online s _ ih =>
      intro h
      exact ih h
  | offline s _ ih =>
      intro h
      exact ih h

/-- formatDateForTimezone throws on an invalid date regardless of the
timezone database. -/
theorem formatDateForTimezone_invalid (tzdb : String → Option Int)
    (tz : String) :
    WorldClockManager.formatDateForTimezone tzdb none tz =
      Except.error "RangeError" := by
  unfold WorldClockManager.formatDateForTimezone
  cases tzdb tz <;> rfl

/-! ## Claim theorems -/

/-- C1, counterexample: on the TimeController sync path, a failure after a
prior successful sync does not leave the stored offset unchanged — the
catch handler `handleOfflineMode` resets it to 0 unconditionally.  After a
success storing offset 5000 (with `lastSyncTime` set), the failure handler
leaves offset 0, not 5000. -/
theorem timeController_sync_failure_resets_offset :
    (TimeController.syncSuccess 5000 0 100).timeOffset = 5000 ∧
    (TimeController.syncSuccess 5000 0 100).lastSyncTime = some 100 ∧
    (TimeController.handleOfflineMode (TimeController.syncSuccess 5000 0 100)).timeOffset = 0 ∧
    (TimeController.handleOfflineMode (TimeController.syncSuccess 5000 0 100)).timeOffset ≠ 5000 := by
  refine ⟨rfl, rfl, rfl, by decide⟩

/-- C1, amended: in NTPService, a sync failure after a prior success leaves
the stored offset unchanged (both through `handleSyncFailure` directly and
through the failure path of `performSync`), and only the never-synced state
zeroes it; the TimeController failure handler `handleOfflineMode`, by
contrast, resets its own offset to 0 on every failure. -/
theorem sync_failure_offset_policy (s : NTPService.State)
    (h : s.lastSyncTime.isSome = true) :
    (NTPService.handleSyncFailure s).timeOffset = s.timeOffset ∧
    (∀ b : Bool,
      ((NTPService.performSync s b .failure).1).timeOffset = s.timeOffset) ∧
    (∀ tc : TimeController.State,
      (TimeController.handleOfflineMode tc).timeOffset = 0) := by
  have hne : s.lastSyncTime ≠ none := by
    cases hl : s.lastSyncTime with
    | none => rw [hl] at h; simp at h
    | some t => simp
  refine ⟨handleSyncFailure_timeOffset s hne, ?_, fun tc => rfl⟩
  intro b
  cases b with
  | false => rfl
  | true =>
      by_cases ho : s.isOnlineMode = true
      · simp only [NTPService.performSync, Bool.not_true, Bool.false_eq_true,
          if_false, ho, if_true, if_pos]
        exact handleSyncFailure_timeOffset s hne
      · simp only [NTPService.performSync, Bool.not_true, Bool.false_eq_true,
          if_false, ho]

/-- C1 witness: the amended property evaluated in a concrete previously
synced NTPService state. -/
theorem sync_failure_offset_policy_witness :
    (Option.isSome (some (1 : Int)) = true) ∧
    (NTPService.handleSyncFailure
      { timeOffset := 5000, lastSyncTime := some 1, isOnlineMode := true
        syncInterval := 900000 }).timeOffset = 5000 := by
  have h := sync_failure_offset_policy
    { timeOffset := 5000, lastSyncTime := some 1, isOnlineMode := true
      syncInterval := 900000 } rfl
  exact ⟨rfl, h.1⟩

/-- C2 (code bug): the per-timezone week number does not implement the
ISO-8601 rule its own comment claims.  On the wall-clock date 2025-12-29
(December is month index 11) `getWeekNumberForTimezone` answers 53 while
the ISO algorithm of `TimeController.getWeekNumber` answers 1. -/
theorem weekNumberForTimezone_vs_iso_2025_12_29 :
    WorldClockManager.getWeekNumberForTimezone 2025 11 29 = 53 ∧
    TimeController.getWeekNumber 2025 11 29 = 1 ∧
    WorldClockManager.getWeekNumberForTimezone 2025 11 29 ≠
      TimeController.getWeekNumber 2025 11 29 := by
  refine ⟨by decide, by decide, by decide⟩

/-- C3, counterexample: an identifier the runtime timezone database does
not support (the oracle returns `none` for every identifier here) makes
getTimeForTimezone return a fallback result carrying `isError = false` —
a silently approximated time, not an explicit error outcome. -/
theorem getTimeForTimezone_unsupported_no_error_flag :
    (WorldClockManager.getTimeForTimezone (fun _ => none) 0 (some 0)
      "Mars/Olympus").isError = false ∧
    (WorldClockManager.getTimeForTimezone (fun _ => none) 0 (some 0)
      "Mars/Olympus").isFallback = true := by
  exact ⟨rfl, rfl⟩

/-- C3, amended: on an identifier unsupported by the runtime timezone
database, getTimeForTimezone silently answers with
getFallbackTimeForTimezone — a DST-unaware fixed-offset approximation
(offset 0 for identifiers not in the table) — flagged only by
`isFallback = true`, never by `isError = true` and never by an
`UnsupportedTimezoneError`. -/
theorem getTimeForTimezone_unsupported_fallback (tzdb : String → Option Int)
    (localOffsetMin : Int) (t : Option Int) (tz : String)
    (h : tzdb tz = none) :
    WorldClockManager.getTimeForTimezone tzdb localOffsetMin t tz =
      WorldClockManager.getFallbackTimeForTimezone localOffsetMin t tz ∧
    (WorldClockManager.getTimeForTimezone tzdb localOffsetMin t tz).isError
      = false ∧
    (WorldClockManager.getTimeForTimezone tzdb localOffsetMin t tz).isFallback
      = true := by
  have h1 : WorldClockManager.getTimeForTimezone tzdb localOffsetMin t tz =
      WorldClockManager.getFallbackTimeForTimezone localOffsetMin t tz := by
    unfold WorldClockManager.getTimeForTimezone
    cases t with
    | none => rfl
    | some ts => rw [h]
  refine ⟨h1, ?_, ?_⟩ <;> rw [h1] <;> rfl

/-- C3 witness: the amended property evaluated at a concrete unsupported
identifier. -/
theorem getTimeForTimezone_unsupported_fallback_witness :
    ((fun _ : String => (none : Option Int)) "Mars/Olympus" = none) ∧
    WorldClockManager.getTimeForTimezone (fun _ => none) 5 (some 42)
        "Mars/Olympus" =
      WorldClockManager.getFallbackTimeForTimezone 5 (some 42)
        "Mars/Olympus" := by
  have h := getTimeForTimezone_unsupported_fallback (fun _ => none) 5
    (some 42) "Mars/Olympus" rfl
  exact ⟨rfl, h.1⟩

/-- C4, counterexample: a `Date` holding NaN passes the `instanceof Date`
guard, so calculateOffset returns a (NaN) value instead of failing with the
InvalidArgument error. -/
theorem calculateOffset_nanDate_returns_value :
    NTPService.calculateOffset .nanDate (.valid 0) = Except.ok none ∧
    NTPService.calculateOffset .nanDate (.valid 0) ≠
      Except.error "Invalid date objects provided for offset calculation" := by
  refine ⟨rfl, fun hc => ?_⟩
  exact Except.noConfusion
    ((Eq.symm (rfl :
      NTPService.calculateOffset .nanDate (.valid 0) = Except.ok none)).trans hc)

/-- C4, amended: calculateOffset returns exactly `remote - local` on two
valid instants; it fails with the InvalidArgument error exactly when an
argument is not a `Date` object at all, while any pair of `Date` objects —
a NaN-valued one included — produces a returned value. -/
theorem calculateOffset_spec (r l : NTPService.JSDateArg) :
    (∀ tr tl : Int, r = .valid tr → l = .valid tl →
      NTPService.calculateOffset r l = .ok (some (tr - tl))) ∧
    ((r.isDate = false ∨ l.isDate = false) →
      NTPService.calculateOffset r l =
        .error "Invalid date objects provided for offset calculation") ∧
    (r.isDate = true → l.isDate = true →
      ∃ v, NTPService.calculateOffset r l = .ok v) := by
  refine ⟨?_, ?_, ?_⟩
  · intro tr tl hr hl
    subst hr; subst hl
    rfl
  · intro hbad
    unfold NTPService.calculateOffset
    rcases hbad with hr | hl
    · rw [hr]; rfl
    · rw [hl]
      cases hr : r.isDate <;> rfl
  · intro hr hl
    unfold NTPService.calculateOffset
    rw [hr, hl]
    exact ⟨_, rfl⟩

/-- C4 witness: the amended property evaluated on two concrete valid
dates. -/
theorem calculateOffset_spec_witness :
    NTPService.calculateOffset (.valid 7) (.valid 2) = .ok (some 5) := by
  have h := (calculateOffset_spec (.valid 7) (.valid 2)).1 7 2 rfl rfl
  simpa using h

/-- C5, counterexample: TimeController.formatTime given an invalid instant
does not return a sentinel error result with placeholder strings — it
returns an ordinary result whose fields are NaN-derived garbage text (and
its result record carries no error flag at all). -/
theorem formatTime_invalid_garbage :
    TimeController.formatTime none true false =
      { timeString := "NaN:NaN:NaN", ampm := "AM"
        showSeconds := true, use24Hour := false } ∧
    ("NaN:NaN:NaN" : String) ≠ "--:--:--" := by
  refine ⟨rfl, by decide⟩

/-- C5, amended: formatting an invalid instant never throws, but only the
per-clock update substitutes the `--` placeholder sentinel:
`updateWorldClockTime` stores the `--` record with `isError = true`
(because the `Intl` date formatter throws and the catch installs the
sentinel), while `formatTime` and `formatDate` return non-error results
built from NaN (`NaN:NaN:NaN`, `undefined, NaN undefined, NaN, week NaN`). -/
theorem formatting_invalid_instant_policy :
    (TimeController.formatTime none true false).timeString = "NaN:NaN:NaN" ∧
    (TimeController.formatTime none false false).timeString = "NaN:NaN" ∧
    (TimeController.formatDate none).dateString =
      "undefined, NaN undefined, NaN, week NaN" ∧
    ∀ (tzdb : String → Option Int) (localOffsetMin : Int) (tz : String),
      WorldClockManager.updateWorldClockTime tzdb localOffsetMin none tz =
        WorldClockManager.errorTimeData := by
  refine ⟨rfl, rfl, rfl, ?_⟩
  intro tzdb localOffsetMin tz
  unfold WorldClockManager.updateWorldClockTime
  rw [formatDateForTimezone_invalid]

/-- C6 (confirmed): the ISO-8601 test vectors of getWeekNumber (month given
as the 0-based `getMonth()` index): 2025-01-01 is week 1, 2025-01-06 is
week 2, 2025-10-14 is week 42 and 2025-12-29 belongs to week 1 (of 2026). -/
theorem getWeekNumber_iso_vectors :
    TimeController.getWeekNumber 2025 0 1 = 1 ∧
    TimeController.getWeekNumber 2025 0 6 = 2 ∧
    TimeController.getWeekNumber 2025 9 14 = 42 ∧
    TimeController.getWeekNumber 2025 11 29 = 1 := by
  refine ⟨by decide, by decide, by decide, by decide⟩

/-- C7 (confirmed): for every wall-clock reading `h:m:s` and preference
flags, formatTime yields meridiem `AM` exactly for hours 0..11 (empty in
24-hour mode), displays `h % 12` with 0 shown as 12 (the raw hour in
24-hour mode), zero-pads every field to two digits and appends the seconds
segment exactly when `showSeconds` is set. -/
theorem formatTime_spec (y : Int) (mo dd h m s : Nat)
    (hh : h < 24) (hm : m < 60) (hs : s < 60) (use24 showSec : Bool) :
    (TimeController.formatTime (some ⟨y, mo, dd, h, m, s⟩) showSec use24).ampm =
      (if use24 then "" else if h ≤ 11 then "AM" else "PM") ∧
    (TimeController.formatTime (some ⟨y, mo, dd, h, m, s⟩) showSec use24).timeString =
      pad2 (if use24 then h else if h % 12 = 0 then 12 else h % 12) ++ ":" ++
        pad2 m ++ (if showSec then ":" ++ pad2 s else "") := by
  unfold TimeController.formatTime
  cases use24 with
  | true =>
      refine ⟨rfl, ?_⟩
      cases showSec <;> simp [jsPad2]
  | false =>
      constructor
      · by_cases h12 : 12 ≤ h
        · have hn : ¬ h ≤ 11 := by omega
          simp [jsGe, h12, hn]
        · have hy : h ≤ 11 := by omega
          simp [jsGe, h12, hy]
      · by_cases hz : h % 12 = 0
        · cases showSec <;> simp [jsPad2, hz]
        · cases showSec <;> simp [jsPad2, hz]

/-- C7 witness: the scenario from the specification — 14:30:45 formatted
with use24Hour false and showSeconds true is `02:30:45` with meridiem
`PM`. -/
theorem formatTime_spec_witness :
    ((14 : Nat) < 24 ∧ (30 : Nat) < 60 ∧ (45 : Nat) < 60) ∧
    (TimeController.formatTime (some ⟨2025, 9, 14, 14, 30, 45⟩) true false).ampm
      = "PM" ∧
    (TimeController.formatTime (some ⟨2025, 9, 14, 14, 30, 45⟩) true false).timeString
      = "02:30:45" := by
  have h := formatTime_spec 2025 9 14 14 30 45 (by decide) (by decide)
    (by decide) false true
  refine ⟨⟨by decide, by decide, by decide⟩, ?_, ?_⟩
  · rw [h.1]; decide
  · rw [h.2]; decide

/-- C8 (confirmed): in every reachable NTPService state, getCurrentTime
returns `localNow + storedOffset` once a sync has ever succeeded
(`lastSyncTime` set, covering both the SYNCED and the STALE mode) and the
raw `localNow` when never synced — in the initial never-synced state
`isOnlineMode` is still true, but the reachability invariant forces a zero
offset there, so the two branches agree.  The function is total: it cannot
throw. -/
theorem ntp_getCurrentTime_spec (s : NTPService.State)
    (hs : NTPService.Reachable s) (localNow : Int) :
    NTPService.getCurrentTime s localNow =
      (if s.lastSyncTime.isSome then localNow + s.timeOffset else localNow) := by
  by_cases hl : s.lastSyncTime.isSome = true
  · simp [NTPService.getCurrentTime, hl]
  · have hnone : s.lastSyncTime = none := by
      cases hx : s.lastSyncTime with
      | none => rfl
      | some t => rw [hx] at hl; simp at hl
    have hz := reachable_offset_zero_of_never_synced s hs hnone
    simp [NTPService.getCurrentTime, hnone, hz]

/-- C8 witness: the initial (reachable, never-synced) state returns the raw
local time. -/
theorem ntp_getCurrentTime_spec_witness :
    NTPService.getCurrentTime NTPService.State.init 7 = 7 := by
  have h := ntp_getCurrentTime_spec NTPService.State.init
    NTPService.Reachable.init 7
  simpa using h

/-- Every single world-clock operation preserves the set invariant. -/
theorem wcInvariant_applyOp (wcs : List WorldClockManager.WorldClock)
    (op : WorldClockManager.WCOp)
    (h : WorldClockManager.WCInvariant wcs) :
    WorldClockManager.WCInvariant (WorldClockManager.applyOp wcs op) := by
  obtain ⟨hlen, hpw⟩ := h
  cases op with
  | remove rOk i =>
      refine ⟨?_, ?_⟩
      · exact le_trans (List.length_filter_le _ _) hlen
      · exact List.Pairwise.sublist (List.filter_sublist _) hpw
  | add tz city v sv i =>
      simp only [WorldClockManager.applyOp, WorldClockManager.addWorldClock]
      by_cases h3 : 3 ≤ wcs.length
      · rw [if_pos h3]; exact ⟨hlen, hpw⟩
      · rw [if_neg h3]
        by_cases hdup : (wcs.any fun wc => wc.timezone = tz) = true
        · rw [if_pos hdup]; exact ⟨hlen, hpw⟩
        · rw [if_neg hdup]
          cases v with
          | false => exact ⟨hlen, hpw⟩
          | true =>
              have hno : ∀ wc ∈ wcs, ¬ wc.timezone = tz := by
                intro wc hwc
                intro hcontra
                exact hdup (List.any_eq_true.2 ⟨wc, hwc, by simp [hcontra]⟩)
              have hpushed : WorldClockManager.WCInvariant
                  (wcs ++ [{ id := i, cityName := city, timezone := tz
                             isEnabled := true }]) := by
                refine ⟨?_, ?_⟩
                · simp only [List.length_append, List.length_singleton]
                  omega
                · rw [List.pairwise_append]
                  refine ⟨hpw, by simp, ?_⟩
                  intro a ha b hb
                  simp only [List.mem_singleton] at hb
                  subst hb
                  exact hno a ha
              cases sv with
              | true => simpa using hpushed
              | false =>
                  simp only [Bool.not_true, Bool.false_eq_true, if_false]
                  refine ⟨?_, ?_⟩
                  · exact le_trans (List.length_filter_le _ _) hpushed.1
                  · exact List.Pairwise.sublist (List.filter_sublist _) hpushed.2

/-- C9 (confirmed): starting from the empty set, every sequence of
addWorldClock / removeWorldClock operations keeps the world-clock set at no
more than 3 members with pairwise distinct timezone identifiers; and
addWorldClock refuses — returning the unchanged set and no configuration —
whenever the set already has 3 members or already contains the requested
timezone. -/
theorem worldClock_set_invariant :
    (∀ ops : List WorldClockManager.WCOp,
      WorldClockManager.WCInvariant (WorldClockManager.runOps ops)) ∧
    (∀ (wcs : List WorldClockManager.WorldClock) (tz city : String)
        (v sv : Bool) (i : String),
      3 ≤ wcs.length →
        WorldClockManager.addWorldClock wcs tz city v sv i = (wcs, none)) ∧
    (∀ (wcs : List WorldClockManager.WorldClock) (tz city : String)
        (v sv : Bool) (i : String),
      (wcs.any fun wc => wc.timezone = tz) = true →
        WorldClockManager.addWorldClock wcs tz city v sv i = (wcs, none)) := by
  refine ⟨?_, ?_, ?_⟩
  · intro ops
    have aux : ∀ (l : List WorldClockManager.WCOp)
        (wcs : List WorldClockManager.WorldClock),
        WorldClockManager.WCInvariant wcs →
          WorldClockManager.WCInvariant
            (List.foldl WorldClockManager.applyOp wcs l) := by
      intro l
      induction l with
      | nil => intro wcs h; exact h
      | cons op rest ih =>
          intro wcs h
          exact ih _ (wcInvariant_applyOp wcs op h)
    exact aux ops [] ⟨by simp, List.Pairwise.nil⟩
  · intro wcs tz city v sv i h3
    unfold WorldClockManager.addWorldClock
    rw [if_pos h3]
  · intro wcs tz city v sv i hdup
    unfold WorldClockManager.addWorldClock
    by_cases h3 : 3 ≤ wcs.length
    · rw [if_pos h3]
    · rw [if_neg h3, if_pos hdup]

/-- C9 witness: a full set of three clocks refuses a fourth. -/
theorem worldClock_set_invariant_witness :
    (3 ≤ ([{ id := "a", cityName := "A", timezone := "Tz1", isEnabled := true },
           { id := "b", cityName := "B", timezone := "Tz2", isEnabled := true },
           { id := "c", cityName := "C", timezone := "Tz3", isEnabled := true }] :
          List WorldClockManager.WorldClock).length) ∧
    WorldClockManager.addWorldClock
        [{ id := "a", cityName := "A", timezone := "Tz1", isEnabled := true },
         { id := "b", cityName := "B", timezone := "Tz2", isEnabled := true },
         { id := "c", cityName := "C", timezone := "Tz3", isEnabled := true }]
        "Tz4" "D" true true "d" =
      ([{ id := "a", cityName := "A", timezone := "Tz1", isEnabled := true },
        { id := "b", cityName := "B", timezone := "Tz2", isEnabled := true },
        { id := "c", cityName := "C", timezone := "Tz3", isEnabled := true }],
       none) := by
  refine ⟨by decide, ?_⟩
  exact worldClock_set_invariant.2.1
    [{ id := "a", cityName := "A", timezone := "Tz1", isEnabled := true },
     { id := "b", cityName := "B", timezone := "Tz2", isEnabled := true },
     { id := "c", cityName := "C", timezone := "Tz3", isEnabled := true }]
    "Tz4" "D" true true "d" (by decide)

/-- C10 (confirmed): getCurrentTime and getSyncStatus are driven by the
same condition `isOnlineMode || lastSyncTime !== null`: the status reports
`isUsingNTPTime = true` exactly when getCurrentTime answers
`localNow + timeOffset`, and when it reports false getCurrentTime answers
the raw local time — in every state, reachable or not. -/
theorem ntp_status_time_consistent (s : NTPService.State) (localNow : Int) :
    (NTPService.getSyncStatus s).isUsingNTPTime =
      (s.isOnlineMode || s.lastSyncTime.isSome) ∧
    NTPService.getCurrentTime s localNow =
      (if (NTPService.getSyncStatus s).isUsingNTPTime then
        localNow + s.timeOffset
      else localNow) := by
  exact ⟨rfl, rfl⟩

end Clock
